import Mathlib

/-
Verification of the HDFS storage driver
(registry/storage/driver/hdfs/driver.go) against its natural-language
specification.

The driver adapts the generic storage-driver contract onto a remote HDFS
filesystem. We give a shallow embedding: the remote filesystem is a finite
map from paths to object sizes, remote-client calls whose outcome the driver
cannot control (connection, seek, directory listing, per-write success) are
explicit oracle parameters, and Go control flow that does not return — a
panic on a failed type assertion, a nil-pointer dereference, log.Fatal — is
modelled by dedicated outcome constructors.
-/

namespace HdfsDriver

/-! ### String and path helpers (Go standard library collaborators)

The driver calls `strings.HasPrefix` and `path.Join` (which applies
`path.Clean`). These are modelled here over the character lists underlying
Lean strings, following the Go library semantics: `Clean` removes `.` and
empty segments, resolves `..` against preceding segments (dropping `..` at
the root of a rooted path), and collapses repeated separators. -/

/-- Decides whether the first character list is a prefix of the second. -/
def isPrefixList : List Char → List Char → Bool
  | [], _ => true
  | _ :: _, [] => false
  | p :: ps, c :: cs => p == c && isPrefixList ps cs

/-- Model of Go `strings.HasPrefix s pre`: `pre` is a prefix of `s`. -/
def goHasPrefix (s pre : String) : Bool :=
  isPrefixList pre.data s.data

/-- Splits a character list on `'/'` into segments (both outer empties and
empties from repeated separators are kept; `Clean` discards them). -/
def splitSegs : List Char → List Char → List String
  | [], cur => [String.mk cur.reverse]
  | c :: rest, cur =>
      if c = '/' then String.mk cur.reverse :: splitSegs rest []
      else splitSegs rest (c :: cur)

/-- Stack pass of Go `path.Clean`: drops empty and `"."` segments, resolves
`".."` against the segment below it (at the top of a rooted path a `".."`
is dropped; in a relative path it is kept). The stack is reversed output. -/
def cleanStack (rooted : Bool) : List String → List String → List String
  | stack, [] => stack
  | stack, seg :: rest =>
      if seg = "" ∨ seg = "." then cleanStack rooted stack rest
      else if seg = ".." then
        match stack with
        | [] => if rooted then cleanStack rooted [] rest
                else cleanStack rooted [".."] rest
        | top :: below =>
            if top = ".." then cleanStack rooted (".." :: top :: below) rest
            else cleanStack rooted below rest
      else cleanStack rooted (seg :: stack) rest

/-- Model of Go `path.Clean`. -/
def goPathClean (p : String) : String :=
  if p = "" then "."
  else
    let rooted := isPrefixList ['/'] p.data
    let outSegs := (cleanStack rooted [] (splitSegs p.data [])).reverse
    let body := String.intercalate "/" outSegs
    if rooted then (if body = "" then "/" else "/" ++ body)
    else (if body = "" then "." else body)

/-- Model of Go `path.Join(a, b)`: empty elements before the first nonempty
one are skipped, the rest are joined with `"/"`, and the result is cleaned;
joining two empty strings gives the empty string. -/
def goPathJoin (a b : String) : String :=
  if a = "" && b = "" then ""
  else if a = "" then goPathClean b
  else if b = "" then goPathClean (a ++ "/")
  else goPathClean (a ++ "/" ++ b)

/-! ### Remote filesystem state

The remote HDFS namespace, as far as the driver observes it, is a finite
map from full paths to object sizes (an association list keyed by path). -/

/-- Remote object store: association list from full path to object size. -/
abbrev World := List (String × Int)

/-- Looks up the size of the object at `key`, `none` when absent. -/
def lookupFile : World → String → Option Int
  | [], _ => none
  | (k, v) :: rest, key => if k = key then some v else lookupFile rest key

/-- Sets (inserts or replaces) the object at `key` to size `v`. -/
def setFile : World → String → Int → World
  | [], key, v => [(key, v)]
  | (k, v0) :: rest, key, v =>
      if k = key then (k, v) :: rest else (k, v0) :: setFile rest key v

/-- Removes every binding of `key`. -/
def removeFile : World → String → World
  | [], _ => []
  | (k, v) :: rest, key =>
      if k = key then removeFile rest key else (k, v) :: removeFile rest key

/-- Grows the object at `key` by `n` bytes (no effect when absent). -/
def addToFile (w : World) (key : String) (n : Int) : World :=
  match lookupFile w key with
  | some s => setFile w key (s + n)
  | none => w

theorem lookupFile_setFile_self (w : World) (key : String) (v : Int) :
    lookupFile (setFile w key v) key = some v := by
  induction w with
  | nil => simp [setFile, lookupFile]
  | cons hd tl ih =>
      obtain ⟨k, v0⟩ := hd
      by_cases h : k = key <;> simp [setFile, lookupFile, h, ih]

/-! ### Errors and remote-side effects -/

/-- The driver's typed error taxonomy (storagedriver error types). -/
inductive StorageError where
  | pathNotFound (path : String)
  | invalidOffset (path : String) (offset : Int)
  | unsupportedMethod
  | other (msg : String)
deriving DecidableEq

/-- Observable calls issued to the remote write handle. -/
inductive RemoteOp where
  | writeBytes (path : String) (n : Nat)
  | closeHandle (path : String)
deriving DecidableEq

/-! ### Configuration resolver and construction (FromParameters, New) -/

/-- A dynamically typed Go value as held in the parameters map. -/
inductive GoValue where
  | str (s : String)
  | intV (n : Int)
  | boolV (b : Bool)
deriving DecidableEq

/-- Model of `fmt.Sprint` on a single value. -/
def goSprint : GoValue → String
  | GoValue.str s => s
  | GoValue.intV n => toString n
  | GoValue.boolV b => cond b "true" "false"

def defaultHdfsRootDirectory : String := "/tmp/hdfs-registry"

def defaultHdfsNamenode : String := ""

def defaultHdfsUser : String := "hdfs"

def defaultDirectoryUmask : Int := 0o755

/-- Driver parameters after defaulting and validation. -/
structure driverParameters where
  hdfsRootDirectory : String
  hdfsNameNode : String
  hdfsUser : String
  directoryUmask : Int
deriving DecidableEq

/-- The constructed driver (the `hdfsClient` connection handle is implicit:
every remote call takes the `World` or an oracle outcome instead). -/
structure Driver where
  hdfsRootDirectory : String
  hdfsNameNode : String
  hdfsUser : String
  directoryUmask : Int
deriving DecidableEq

/-- Outcome of driver construction. `fatalExit` models `log.Fatal`, which
prints and terminates the whole process; `panicWrongType` models the Go
runtime panic of a failed interface type assertion `v.(int)`. -/
inductive ConstructionOutcome where
  | ok (d : Driver)
  | fatalExit
  | panicWrongType (key : String)
deriving DecidableEq

/-- Model of Go map lookup in the parameters map. -/
def lookupParam : List (String × GoValue) → String → Option GoValue
  | [], _ => none
  | (k, v) :: rest, key => if k = key then some v else lookupParam rest key

/-- Model of `New`: connects to the namenode (`connectFails` is the oracle
for `hdfs.NewForUser`); on connection failure the source calls
`log.Fatal(err)`, modelled as `fatalExit`; otherwise it returns the driver
populated from the parameters, with a nil error. -/
def New (params : driverParameters) (connectFails : Bool) : ConstructionOutcome :=
  if connectFails then ConstructionOutcome.fatalExit
  else ConstructionOutcome.ok
    { hdfsRootDirectory := params.hdfsRootDirectory
      hdfsNameNode := params.hdfsNameNode
      hdfsUser := params.hdfsUser
      directoryUmask := params.directoryUmask }

/-- Model of `FromParameters`: starts from the defaults; for each of
`hdfsrootdirectory`, `hdfsnamenode`, `hdfsuser` a supplied value of any type
is accepted through `fmt.Sprint`; for `directoryumask` the source performs
the unchecked assertion `dUmask.(int)`, which panics on a non-int value.
A `none` map skips all lookups. Finally delegates to `New`. -/
def FromParameters (parameters : Option (List (String × GoValue)))
    (connectFails : Bool) : ConstructionOutcome :=
  match parameters with
  | none =>
      New { hdfsRootDirectory := defaultHdfsRootDirectory
            hdfsNameNode := defaultHdfsNamenode
            hdfsUser := defaultHdfsUser
            directoryUmask := defaultDirectoryUmask } connectFails
  | some ps =>
      let hdfsRootDirectory :=
        match lookupParam ps "hdfsrootdirectory" with
        | some v => goSprint v
        | none => defaultHdfsRootDirectory
      let hdfsNamenode :=
        match lookupParam ps "hdfsnamenode" with
        | some v => goSprint v
        | none => defaultHdfsNamenode
      let hdfsUser :=
        match lookupParam ps "hdfsuser" with
        | some v => goSprint v
        | none => defaultHdfsUser
      match lookupParam ps "directoryumask" with
      | some (GoValue.intV n) =>
          New { hdfsRootDirectory := hdfsRootDirectory
                hdfsNameNode := hdfsNamenode
                hdfsUser := hdfsUser
                directoryUmask := n } connectFails
      | some _ => ConstructionOutcome.panicWrongType "directoryumask"
      | none =>
          New { hdfsRootDirectory := hdfsRootDirectory
                hdfsNameNode := hdfsNamenode
                hdfsUser := hdfsUser
                directoryUmask := defaultDirectoryUmask } connectFails

/-! ### fileWriter (the FileWriter session) -/

/-- State of a `fileWriter`. `hdfsWriterPresent` models `hdfsWriter != nil`.
Go zero values give `isClosed = false`, `writeSize = 0` at construction. -/
structure FileWriter where
  hdfsWriterPresent : Bool
  filePath : String
  isClosed : Bool
  writeSize : Int
  startingFileSize : Int
deriving DecidableEq

/-- Model of `newFileWriter`. -/
def newFileWriter (hdfsWriterPresent : Bool) (filePath : String)
    (startingFileSize : Int) : FileWriter :=
  { hdfsWriterPresent := hdfsWriterPresent
    filePath := filePath
    isClosed := false
    writeSize := 0
    startingFileSize := startingFileSize }

/-- Model of `fileWriter.Size`: a one-time fold of `startingFileSize` into
`writeSize` (guarded by `startingFileSize > 0`), then returns `writeSize`.
The call mutates the writer, so the updated writer is returned too. -/
def FileWriter.Size (w : FileWriter) : Int × FileWriter :=
  if w.startingFileSize > 0 then
    let w1 := { w with writeSize := w.writeSize + w.startingFileSize
                       startingFileSize := 0 }
    (w1.writeSize, w1)
  else
    (w.writeSize, w)

/-- Result of `fileWriter.Write`: updated writer, updated remote store, the
remote calls issued, and the Go return pair `(int, error)`. -/
structure WriteResult where
  writer : FileWriter
  world : World
  remoteOps : List RemoteOp
  n : Int
  err : Option StorageError
deriving DecidableEq

/-- Model of `fileWriter.Write(p)`: calls `w.Size()` (for its fold side
effect), forwards the bytes to the remote handle — `remoteOk` is the oracle
for the remote write; on failure the error is logged and discarded, and the
object does not grow — then sets `isClosed = false`, adds `len(p)` to
`writeSize`, and returns `(len(p), nil)` unconditionally. -/
def FileWriter.Write (w : FileWriter) (world : World) (p : List Nat)
    (remoteOk : Bool) : WriteResult :=
  let w1 := (FileWriter.Size w).2
  let world1 := if remoteOk then addToFile world w1.filePath (Int.ofNat p.length)
                else world
  let w2 := { w1 with isClosed := false
                      writeSize := w1.writeSize + Int.ofNat p.length }
  { writer := w2
    world := world1
    remoteOps := [RemoteOp.writeBytes w1.filePath p.length]
    n := Int.ofNat p.length
    err := none }

/-- Result of `fileWriter.Close`: updated writer, remote calls issued, and
the returned error. -/
structure CloseResult where
  writer : FileWriter
  err : Option StorageError
  remoteOps : List RemoteOp
deriving DecidableEq

/-- Model of `fileWriter.Close`: calls `w.Size()`; when the handle is
present and `isClosed` is false, marks the writer closed and closes the
remote handle (a remote close error is logged and discarded); always
returns nil. -/
def FileWriter.Close (w : FileWriter) : CloseResult :=
  let w1 := (FileWriter.Size w).2
  if w1.hdfsWriterPresent then
    if !w1.isClosed then
      let w2 := { w1 with isClosed := true }
      { writer := w2, err := none, remoteOps := [RemoteOp.closeHandle w2.filePath] }
    else
      { writer := w1, err := none, remoteOps := [] }
  else
    { writer := w1, err := none, remoteOps := [] }

/-! ### Driver operations -/

/-- Model of `driver.fullPath`: if `subPath` already carries the configured
root directory as a (string) prefix it is returned unchanged; otherwise it
is `path.Join`ed with the root. -/
def Driver.fullPath (d : Driver) (subPath : String) : String :=
  if goHasPrefix subPath d.hdfsRootDirectory then subPath
  else goPathJoin d.hdfsRootDirectory subPath

/-- Result of `driver.Writer`: the session, the updated remote store, and
the returned error (the source returns nil in every branch). -/
structure WriterResult where
  writer : FileWriter
  world : World
  err : Option StorageError
deriving DecidableEq

/-- Model of `driver.Writer(path, append)`: resolves the full path and
provisions parent directories (`makeParentDir` creates directories only, so
it does not change any object size). Then opens the target: if the open
fails (target absent) it creates a fresh object and a writer with starting
size 0; if the target exists and `append` is false it removes the target,
creates fresh, starting size 0; if it exists and `append` is true it opens
for append with starting size `reader.Stat().Size()`, the current object
size. Errors of `Create`/`Append` are discarded in the source (`_`); the
remote handle is modelled as obtained. -/
def Driver.Writer (d : Driver) (world : World) (path : String)
    (append : Bool) : WriterResult :=
  let fp := d.fullPath path
  match lookupFile world fp with
  | none =>
      { writer := newFileWriter true fp 0
        world := setFile world fp 0
        err := none }
  | some size =>
      if !append then
        { writer := newFileWriter true fp 0
          world := setFile (removeFile world fp) fp 0
          err := none }
      else
        { writer := newFileWriter true fp size
          world := world
          err := none }

/-- Result of `driver.PutContent`: the updated remote store and the
returned error. -/
structure PutContentResult where
  world : World
  err : Option StorageError
deriving DecidableEq

/-- Model of `driver.PutContent(path, contents)`: resolves the full path,
provisions parent directories, obtains a truncating writer via
`d.Writer(fullPath, false)` — an error there is logged and execution
continues — writes the contents (`remoteOk` is the oracle for the remote
write), closes the writer, and returns the error of the `Write` call. -/
def Driver.PutContent (d : Driver) (world : World) (path : String)
    (contents : List Nat) (remoteOk : Bool) : PutContentResult :=
  let fp := d.fullPath path
  let wr := d.Writer world fp false
  let st := FileWriter.Write wr.writer wr.world contents remoteOk
  let _cl := FileWriter.Close st.writer
  { world := st.world, err := st.err }

/-- Outcome of `driver.Reader`. `nilDeref` models the nil-pointer
dereference that `reader.Seek` performs when `Open` failed and returned a
nil reader (the open error was only logged). -/
inductive ReaderOutcome where
  | session (pos : Int)
  | err (e : StorageError)
  | nilDeref
deriving DecidableEq

/-- Model of `driver.Reader(path, offset)`: opens the file at the full
path; when the open fails (target absent) the error is logged and the code
proceeds to call `Seek` on the nil reader, a nil dereference. Otherwise it
seeks to `offset` (`seekRes` is the oracle for the remote `Seek`): a seek
error closes the reader and is returned as-is; an achieved position below
the requested offset closes the reader and yields `InvalidOffset` carrying
the full path and the offset; otherwise the session is returned. -/
def Driver.Reader (d : Driver) (world : World) (path : String) (offset : Int)
    (seekRes : Except StorageError Int) : ReaderOutcome :=
  let fp := d.fullPath path
  match lookupFile world fp with
  | none => ReaderOutcome.nilDeref
  | some _ =>
      match seekRes with
      | Except.error e => ReaderOutcome.err e
      | Except.ok seekPos =>
          if seekPos < offset then
            ReaderOutcome.err (StorageError.invalidOffset fp offset)
          else
            ReaderOutcome.session seekPos

/-- Model of `driver.List(subPath)` (source name `List`): reads the remote
directory — `readDirRes` is the oracle for `hdfsClient.ReadDir`, giving the
child names on success. Any listing failure yields the empty list and a
nil error; on success each child name is prefixed with the full path of
`subPath` and a separator. -/
def Driver.ListDir (d : Driver) (subPath : String)
    (readDirRes : Except StorageError (List String)) :
    List String × Option StorageError :=
  match readDirRes with
  | Except.error _ => ([], none)
  | Except.ok names =>
      (names.map (fun name => d.fullPath subPath ++ "/" ++ name), none)

/-- The append-accounting scenario of the spec: a fresh writer session at
`p` writes `bs` and closes; a second session is opened with append, its
size is read twice, `cs` is written through it, and the size is read twice
again. Returns the four observed sizes. All remote writes succeed. -/
def appendScenario (d : Driver) (world0 : World) (p : String)
    (bs cs : List Nat) : Int × Int × Int × Int :=
  let s1 := d.Writer world0 p false
  let st1 := FileWriter.Write s1.writer s1.world bs true
  let cl1 := FileWriter.Close st1.writer
  let s2 := d.Writer st1.world p true
  let r1 := FileWriter.Size s2.writer
  let r2 := FileWriter.Size r1.2
  let st2 := FileWriter.Write r2.2 s2.world cs true
  let r3 := FileWriter.Size st2.writer
  let r4 := FileWriter.Size r3.2
  let _ := cl1
  (r1.1, r2.1, r3.1, r4.1)

/-- A concrete driver configuration used by witnesses. -/
def sampleDriver : Driver :=
  { hdfsRootDirectory := "/r"
    hdfsNameNode := "namenode:8020"
    hdfsUser := "hdfs"
    directoryUmask := 0o755 }

/-! ### Theorems about the claims -/

/-- Claim C7: for every configured root and logical path P, if P already
starts with the root (string prefix) then `fullPath P = P`; otherwise
`fullPath P` is the root joined with P by `path.Join`, which normalizes
separators. -/
theorem fullPath_spec (d : Driver) (P : String) :
    (goHasPrefix P d.hdfsRootDirectory = true → d.fullPath P = P) ∧
    (goHasPrefix P d.hdfsRootDirectory = false →
       d.fullPath P = goPathJoin d.hdfsRootDirectory P) := by
  constructor <;> intro h <;> simp [Driver.fullPath, h]

/-- Witness for C7 at the sample driver, covering both branches. -/
theorem fullPath_spec_witness :
    (goHasPrefix "/r/x" "/r" = true ∧ sampleDriver.fullPath "/r/x" = "/r/x") ∧
    (goHasPrefix "/a" "/r" = false ∧
       sampleDriver.fullPath "/a" = goPathJoin "/r" "/a") :=
  ⟨⟨by decide, (fullPath_spec sampleDriver "/r/x").1 (by decide)⟩,
   ⟨by decide, (fullPath_spec sampleDriver "/a").2 (by decide)⟩⟩

/-- Claim C2: `Writer(p, append)` selects the open mode by existence of the
target: absent target — fresh object, starting size 0, for either value of
the append flag; existing target with append=false — the target is
truncated to a fresh size-0 object and the starting size is 0; existing
target with append=true — the remote store is untouched and the starting
size is the target's current size. -/
theorem writer_open_mode (d : Driver) (world : World) (p : String) (ap : Bool) :
    (lookupFile world (d.fullPath p) = none →
       (d.Writer world p ap).writer.startingFileSize = 0 ∧
       lookupFile (d.Writer world p ap).world (d.fullPath p) = some 0) ∧
    (∀ sz, lookupFile world (d.fullPath p) = some sz → ap = false →
       (d.Writer world p ap).writer.startingFileSize = 0 ∧
       lookupFile (d.Writer world p ap).world (d.fullPath p) = some 0) ∧
    (∀ sz, lookupFile world (d.fullPath p) = some sz → ap = true →
       (d.Writer world p ap).writer.startingFileSize = sz ∧
       (d.Writer world p ap).world = world) := by
  refine ⟨fun h => ?_, fun sz h hap => ?_, fun sz h hap => ?_⟩
  · simp [Driver.Writer, h, newFileWriter, lookupFile_setFile_self]
  · simp [Driver.Writer, h, hap, newFileWriter, lookupFile_setFile_self]
  · simp [Driver.Writer, h, hap, newFileWriter, lookupFile_setFile_self]

/-- Witness for C2 at the sample driver (append to an existing object). -/
theorem writer_open_mode_witness :
    lookupFile [("/r/a", 5)] (sampleDriver.fullPath "/a") = some 5 ∧
    (sampleDriver.Writer [("/r/a", 5)] "/a" true).writer.startingFileSize = 5 ∧
    (sampleDriver.Writer [("/r/a", 5)] "/a" true).world = [("/r/a", 5)] := by
  refine ⟨by decide, ?_, ?_⟩
  · exact ((writer_open_mode sampleDriver [("/r/a", 5)] "/a" true).2.2 5
      (by decide) rfl).1
  · exact ((writer_open_mode sampleDriver [("/r/a", 5)] "/a" true).2.2 5
      (by decide) rfl).2

/-- Claim C10: `fileWriter.Write(p)` returns the pair `(len(p), nil)` for
every writer state, remote store, payload, and remote-write outcome: a
failed remote write is logged and discarded, so no caller can observe one
through the return values. -/
theorem write_reports_success_always (w : FileWriter) (world : World)
    (p : List Nat) (remoteOk : Bool) :
    (FileWriter.Write w world p remoteOk).n = Int.ofNat p.length ∧
    (FileWriter.Write w world p remoteOk).err = none :=
  ⟨rfl, rfl⟩

/-- Claim C5 (code side): on connection failure `New` invokes `log.Fatal`,
terminating the process, for every parameter set — it never returns a
recoverable error to the caller. -/
theorem new_fatal_on_connection_failure (params : driverParameters) :
    New params true = ConstructionOutcome.fatalExit := rfl

/-- Claim C6 (code side): a non-integer value under the directory-mask key
makes `FromParameters` panic on the unchecked type assertion `dUmask.(int)`
instead of returning a configuration error. -/
theorem fromParameters_panics_on_nonint_umask :
    FromParameters (some [("directoryumask", GoValue.str "0755")]) false =
      ConstructionOutcome.panicWrongType "directoryumask" := rfl

/-- Claim C1 (code side): with the remote write failing, `PutContent` of
three bytes to a fresh path leaves the object at size 0 — the requested
bytes were not written — yet returns a nil error. -/
theorem putContent_swallows_write_failure :
    (sampleDriver.PutContent [] "/a" [1, 2, 3] false).err = none ∧
    lookupFile (sampleDriver.PutContent [] "/a" [1, 2, 3] false).world
      (sampleDriver.fullPath "/a") = some 0 := by
  decide

/-- Claim C4 (code side): when the open fails (target absent), `Reader`
only logs the open error and then calls `Seek` on the nil reader — a nil
dereference — for every offset and seek oracle; it never returns the
`NotFound` error. -/
theorem reader_open_failure_nil_deref (d : Driver) (world : World)
    (p : String) (offset : Int) (seekRes : Except StorageError Int)
    (h : lookupFile world (d.fullPath p) = none) :
    d.Reader world p offset seekRes = ReaderOutcome.nilDeref := by
  simp [Driver.Reader, h]

/-- Witness for C4 at the sample driver and an empty remote store. -/
theorem reader_open_failure_nil_deref_witness :
    lookupFile [] (sampleDriver.fullPath "/a") = none ∧
    sampleDriver.Reader [] "/a" 0 (Except.ok 0) = ReaderOutcome.nilDeref :=
  ⟨by decide,
   reader_open_failure_nil_deref sampleDriver [] "/a" 0 (Except.ok 0) (by decide)⟩

/-- Claim C9: `List` returns a nil error on every input; a failed backend
listing (in particular a nonexistent path) yields the empty list, and a
successful listing yields each child name prefixed by the full path of the
listed path and a separator. -/
theorem list_error_swallowing (d : Driver) (subPath : String)
    (res : Except StorageError (List String)) :
    (d.ListDir subPath res).2 = none ∧
    (∀ e, res = Except.error e → d.ListDir subPath res = ([], none)) ∧
    (∀ names, res = Except.ok names →
       (d.ListDir subPath res).1 =
         names.map (fun name => d.fullPath subPath ++ "/" ++ name)) := by
  cases res <;> simp [Driver.ListDir]

/-- Witness for C9 at the sample driver: a failed listing and a successful
one with two children. -/
theorem list_error_swallowing_witness :
    sampleDriver.ListDir "/dir" (Except.error (StorageError.other "eio")) =
      ([], none) ∧
    (sampleDriver.ListDir "/dir" (Except.ok ["x", "y"])).1 =
      ["/r/dir/x", "/r/dir/y"] := by
  constructor
  · exact (list_error_swallowing sampleDriver "/dir"
      (Except.error (StorageError.other "eio"))).2.1 _ rfl
  · exact ((list_error_swallowing sampleDriver "/dir"
      (Except.ok ["x", "y"])).2.2 ["x", "y"] rfl).trans (by decide)

/-- Claim C3: after a fresh session at `p` writes `N = bs.length` bytes and
closes, a session opened with append reports size N before any further
write and again N on a repeated call; after writing `M = cs.length` more
bytes it reports N + M, and again N + M on a repeated call — the one-time
fold of the starting size into the write counter does not change the
observed value across repeated `Size` calls. -/
theorem append_accounting (d : Driver) (world0 : World) (p : String)
    (bs cs : List Nat) (h : lookupFile world0 (d.fullPath p) = none) :
    appendScenario d world0 p bs cs =
      (Int.ofNat bs.length, Int.ofNat bs.length,
       Int.ofNat bs.length + Int.ofNat cs.length,
       Int.ofNat bs.length + Int.ofNat cs.length) := by
  have hW1 : d.Writer world0 p false =
      { writer := newFileWriter true (d.fullPath p) 0
        world := setFile world0 (d.fullPath p) 0
        err := none } := by
    simp [Driver.Writer, h]
  have hSt1 : FileWriter.Write (newFileWriter true (d.fullPath p) 0)
      (setFile world0 (d.fullPath p) 0) bs true =
      { writer := { hdfsWriterPresent := true, filePath := d.fullPath p,
                    isClosed := false, writeSize := Int.ofNat bs.length,
                    startingFileSize := 0 }
        world := setFile (setFile world0 (d.fullPath p) 0) (d.fullPath p)
                  (Int.ofNat bs.length)
        remoteOps := [RemoteOp.writeBytes (d.fullPath p) bs.length]
        n := Int.ofNat bs.length
        err := none } := by
    simp [FileWriter.Write, FileWriter.Size, newFileWriter, addToFile,
      lookupFile_setFile_self]
  have hW2 : d.Writer (setFile (setFile world0 (d.fullPath p) 0)
      (d.fullPath p) (Int.ofNat bs.length)) p true =
      { writer := newFileWriter true (d.fullPath p) (Int.ofNat bs.length)
        world := setFile (setFile world0 (d.fullPath p) 0) (d.fullPath p)
                  (Int.ofNat bs.length)
        err := none } := by
    simp [Driver.Writer, lookupFile_setFile_self]
  simp only [appendScenario, hW1, hSt1, hW2]
  rcases Nat.eq_zero_or_pos bs.length with hb | hb <;>
    simp [FileWriter.Size, FileWriter.Write, newFileWriter, hb, Prod.ext_iff,
      Int.ofNat_pos]

/-- Witness for C3: two bytes then one byte through the sample driver. -/
theorem append_accounting_witness :
    lookupFile [] (sampleDriver.fullPath "/a") = none ∧
    appendScenario sampleDriver [] "/a" [1, 2] [9] = (2, 2, 3, 3) := by
  refine ⟨by decide, ?_⟩
  exact (append_accounting sampleDriver [] "/a" [1, 2] [9] (by decide)).trans
    (by decide)

/-- Claim C8, counterexample: on a freshly opened writer, Close emits the
remote close; a Write after that Close resets `isClosed`, so a second Close
emits the remote close again — it is not a no-op, refuting idempotence
regardless of intervening Write calls. -/
theorem close_write_close_closes_again :
    (FileWriter.Close (newFileWriter true "/r/a" 0)).remoteOps =
      [RemoteOp.closeHandle "/r/a"] ∧
    (FileWriter.Close
      (FileWriter.Write (FileWriter.Close (newFileWriter true "/r/a" 0)).writer
        [("/r/a", 0)] [7] true).writer).remoteOps =
      [RemoteOp.closeHandle "/r/a"] := by
  decide

/-- Claim C8, amended: `Close` always returns nil; the first call closes
the remote handle exactly when the handle is present and the writer is not
yet closed; and a second `Close` with no intervening `Write` is a no-op —
it returns nil, issues no remote call, and leaves the writer unchanged. -/
theorem close_idempotent_without_write (w : FileWriter) :
    (FileWriter.Close w).err = none ∧
    (FileWriter.Close w).remoteOps =
      (if w.hdfsWriterPresent && !w.isClosed then [RemoteOp.closeHandle w.filePath]
       else []) ∧
    (FileWriter.Close (FileWriter.Close w).writer).err = none ∧
    (FileWriter.Close (FileWriter.Close w).writer).remoteOps = [] ∧
    (FileWriter.Close (FileWriter.Close w).writer).writer =
      (FileWriter.Close w).writer := by
  obtain ⟨pres, fp, closed, ws, st⟩ := w
  simp only [FileWriter.Close, FileWriter.Size]
  split_ifs <;> simp_all

end HdfsDriver
